import Mathlib

/-!
Shallow embedding of fury's effect-compositing pipeline
(`fury/actors/effect_manager.py`): the texture-binding helpers, the
`EffectManager` registry life cycle and the `KDE` effect's derived
geometry.  Coordinates and bandwidths are modelled as rationals, numpy
arrays as lists, the python dict registry as an association list, and
raised exceptions as explicit error values.
-/

namespace Fury

attribute [local semireducible] Rat.mul Rat.add Rat.inv Rat.sub

/-- A 3-D position, one entry of the point set handed to `KDE`. -/
structure Point3 where
  x : ℚ
  y : ℚ
  z : ℚ
deriving DecidableEq

/-- Errors raised by `KDE.__init__`: `IndexError` on a bandwidth array whose
length is neither 1 nor N (the spec's `ShapeError`), `ValueError` on a
non-positive bandwidth. -/
inductive KDEError where
  | shapeError
  | valueError
deriving DecidableEq

/-- The state a constructed `KDE` effect carries that the claims touch.
`bandwidths` is `self.bandwidths`, stored by `__init__` BEFORE the length-1
broadcast (line 253 of the source); `scales` is `self.scales = 2*3.0*bandwidths`
computed AFTER the broadcast. -/
structure KDE where
  points : List Point3
  bandwidths : List ℚ
  kernel : String
  scales : List ℚ
  center_of_mass : Point3
deriving DecidableEq

/-- `np.average(points, axis=0)`: the componentwise mean of the point set. -/
def centroid (points : List Point3) : Point3 :=
  let n : ℚ := points.length
  ⟨(points.map Point3.x).sum / n,
   (points.map Point3.y).sum / n,
   (points.map Point3.z).sum / n⟩

/-- The local rebinding in `KDE.__init__`: a length-1 bandwidth array is
broadcast with `np.repeat(bandwidths[0], points.shape[0])`. -/
def broadcastBandwidths (points : List Point3) (bandwidths : List ℚ) : List ℚ :=
  if bandwidths.length = 1 then List.replicate points.length (bandwidths.headD 0)
  else bandwidths

/-- `KDE.__init__` for an ndarray bandwidth argument: stores the raw
`bandwidths`, raises `IndexError` when the length is neither 1 nor N, broadcasts
a length-1 array, raises `ValueError` when `np.min(bandwidths) <= 0` (numpy also
raises `ValueError` on an empty reduction), then derives
`scales = 2*3.0*bandwidths` and the centroid. -/
def KDE.make (points : List Point3) (bandwidths : List ℚ) (kernel : String) :
    Except KDEError KDE :=
  if bandwidths.length ≠ 1 ∧ bandwidths.length ≠ points.length then
    .error .shapeError
  else
    match broadcastBandwidths points bandwidths with
    | [] => .error .valueError
    | b :: bs =>
      if bs.foldl min b ≤ 0 then .error .valueError
      else
        .ok { points := points
              bandwidths := bandwidths
              kernel := kernel
              scales := (b :: bs).map (fun v => 2 * 3 * v)
              center_of_mass := centroid points }

/-- `np.repeat(arr, 4)`: each element repeated 4 times in place. -/
def repeatEach4 (l : List ℚ) : List ℚ :=
  (l.map (fun v => List.replicate 4 v)).flatten

/-- The per-vertex attribute uploaded by `KDE.apply` as `"in_bandwidth"`:
`np.repeat(self.bandwidths, 4)` — note it reads the pre-broadcast
`self.bandwidths`. -/
def KDE.in_bandwidth (k : KDE) : List ℚ :=
  repeatEach4 k.bandwidths

/-- The per-vertex attribute uploaded by `KDE.apply` as `"in_scale"`:
`np.repeat(self.scales, 4)`. -/
def KDE.in_scale (k : KDE) : List ℚ :=
  repeatEach4 k.scales

/-- Modelled from the spec: `fury.actor.billboard` and the actor's
`GetBounds()` are repository/toolkit code not under `src/`.  Per the spec each
first-pass quad is a camera-facing square centered on its point with
half-extent equal to its scale, so the actor bounds are the union of the
per-point intervals.  Returns `(xmin, xmax, ymin, ymax)`. -/
def billBounds (pts : List (Point3 × ℚ)) : ℚ × ℚ × ℚ × ℚ :=
  match pts with
  | [] => (0, 0, 0, 0)
  | (p, s) :: rest =>
    rest.foldl
      (fun acc q =>
        (min acc.1 (q.1.x - q.2), max acc.2.1 (q.1.x + q.2),
         min acc.2.2.1 (q.1.y - q.2), max acc.2.2.2 (q.1.y + q.2)))
      (p.x - s, p.x + s, p.y - s, p.y + s)

/-- The x-extent `bill_bounds[1] - bill_bounds[0]` of the first-pass billboard
used in `KDE.apply`. -/
def KDE.bboxExtentX (k : KDE) : ℚ :=
  (billBounds (k.points.zip k.scales)).2.1 - (billBounds (k.points.zip k.scales)).1

/-- The y-extent `bill_bounds[3] - bill_bounds[2]` of the first-pass billboard
used in `KDE.apply`. -/
def KDE.bboxExtentY (k : KDE) : ℚ :=
  (billBounds (k.points.zip k.scales)).2.2.2 - (billBounds (k.points.zip k.scales)).2.2.1

/-- `max_bandwidth = 2*4.0*np.max(bandwidths)` computed in `KDE.apply` (from
`self.bandwidths`). -/
def KDE.max_bandwidth (k : KDE) : ℚ :=
  2 * 4 * (match k.bandwidths with | [] => 0 | b :: bs => bs.foldl max b)

/-- The `actor_scales` x and y entries of `KDE.apply`:
`bounds extent + center_of_mass coordinate + max_bandwidth` per axis. -/
def KDE.actor_scales (k : KDE) : ℚ × ℚ :=
  (k.bboxExtentX + k.center_of_mass.x + k.max_bandwidth,
   k.bboxExtentY + k.center_of_mass.y + k.max_bandwidth)

/-- The uniform second-pass quad extent: `actor_scales.max()` taken by numpy
over the whole array `[[x, y, 0.0]]`, so the trailing `0.0` participates in the
maximum. -/
def KDE.secondPassExtent (k : KDE) : ℚ :=
  max (max k.actor_scales.1 k.actor_scales.2) 0

/-- The second-pass extent as the spec words it: "the larger of the resulting
x/y extents" (no `0.0` participant). -/
def KDE.specSecondPassExtent (k : KDE) : ℚ :=
  max k.actor_scales.1 k.actor_scales.2

/-- The second-pass textured billboard is positioned at
`np.array([center_of_mass])`. -/
def KDE.secondPassCenter (k : KDE) : Point3 :=
  k.center_of_mass

/-! ## Effect manager -/

/-- An abstract effect as `EffectManager.add` sees it: the identity of its
second-pass `textured_billboard` (the registry key and removal handle), the
identity of its first-pass `bill`, and whether `apply` or the synchronous
first callback invocation raises.  `applyFailsAfterSceneAdd` distinguishes an
`apply` exception raised before vs after the first-pass billboard was inserted
into the off-screen scene. -/
structure Effect where
  id : Nat
  billId : Nat
  applyFails : Bool
  applyFailsAfterSceneAdd : Bool
  callbackFails : Bool
deriving DecidableEq

/-- The `EffectManager` state the claims touch: the `_active_effects` dict
(handle ↦ (callback id, first-pass billboard)), `_n_active_effects`, the two
scenes' actor lists, the set of subscribed render-event callbacks, and a
counter supplying fresh callback ids. -/
structure EffectManager where
  activeEffects : List (Nat × Nat × Nat)
  nActiveEffects : Nat
  onSceneActors : List Nat
  offSceneActors : List Nat
  subscriptions : List Nat
  nextCallbackId : Nat
deriving DecidableEq

/-- `EffectManager.__init__`: empty registry, empty scenes (only the
registry-relevant state is modelled). -/
def EffectManager.init : EffectManager :=
  ⟨[], 0, [], [], [], 0⟩

/-- Python-dict lookup `_active_effects[handle]`. -/
def lookupEffect (h : Nat) (l : List (Nat × Nat × Nat)) : Option (Nat × Nat) :=
  (l.find? (fun p => p.1 == h)).map (fun p => p.2)

/-- Python-dict assignment `_active_effects[handle] = v`: overwrites an
existing key in place, appends a new key. -/
def dictInsert (h : Nat) (v : Nat × Nat) (l : List (Nat × Nat × Nat)) :
    List (Nat × Nat × Nat) :=
  if l.any (fun p => p.1 == h) then
    l.map (fun p => if p.1 == h then (h, v) else p)
  else l ++ [(h, v)]

/-- Python-dict `.pop(handle)`: removes the (unique) entry with that key. -/
def dictPop (h : Nat) (l : List (Nat × Nat × Nat)) : List (Nat × Nat × Nat) :=
  l.eraseP (fun p => p.1 == h)

/-- `effect.apply(self)`: on the success path inserts the first-pass billboard
into the off-screen scene (the attribute uploads, blending state and
second-pass construction carry no registry state).  Returns the possibly
mutated manager and whether apply completed without raising. -/
def applyEffect (m : EffectManager) (e : Effect) : EffectManager × Bool :=
  if e.applyFails && !e.applyFailsAfterSceneAdd then
    (m, false)
  else
    let m1 := { m with offSceneActors := m.offSceneActors ++ [e.billId] }
    (m1, !e.applyFails)

/-- What `EffectManager.add` produces: the manager state after the call, the
returned handle (`none` when an exception propagated), and how many times the
per-frame callback ran synchronously inside `add`. -/
structure AddResult where
  manager : EffectManager
  handle : Option Nat
  syncInvocations : Nat
deriving DecidableEq

/-- `EffectManager.add(effect)`: runs `effect.apply(self)`, invokes the
callback once synchronously, subscribes it to `"RenderEvent"`, inserts the
registry entry, increments `_n_active_effects`, adds the second-pass billboard
to the on-screen scene, and returns it.  An exception from `apply` or from the
synchronous callback propagates before any registry mutation. -/
def EffectManager.add (m : EffectManager) (e : Effect) : AddResult :=
  let r := applyEffect m e
  if !r.2 then ⟨r.1, none, 0⟩
  else if e.callbackFails then ⟨r.1, none, 1⟩
  else
    let cid := r.1.nextCallbackId
    ⟨{ r.1 with
        subscriptions := r.1.subscriptions ++ [cid]
        nextCallbackId := cid + 1
        activeEffects := dictInsert e.id (cid, e.billId) r.1.activeEffects
        nActiveEffects := r.1.nActiveEffects + 1
        onSceneActors := r.1.onSceneActors ++ [e.id] },
     some e.id, 1⟩

/-- Errors raised by `EffectManager.remove_effect`: `IndexError` when the
registry is empty (the spec's `EmptyRegistry`), `KeyError` from the dict lookup
of an unknown handle. -/
inductive RemoveError where
  | emptyRegistry
  | keyError
deriving DecidableEq

/-- `EffectManager.remove_effect(effect_actor)`: raises when
`_n_active_effects == 0`; otherwise looks the handle up (a `KeyError` here
propagates before any mutation), unsubscribes the callback, removes the
first-pass billboard from the off-screen scene and the handle from the
on-screen scene, pops the registry entry and decrements the count. -/
def EffectManager.remove_effect (m : EffectManager) (h : Nat) :
    EffectManager × Option RemoveError :=
  if 0 < m.nActiveEffects then
    match lookupEffect h m.activeEffects with
    | none => (m, some .keyError)
    | some (cid, bill) =>
      ({ m with
          subscriptions := m.subscriptions.erase cid
          offSceneActors := m.offSceneActors.erase bill
          onSceneActors := m.onSceneActors.erase h
          activeEffects := dictPop h m.activeEffects
          nActiveEffects := m.nActiveEffects - 1 }, none)
  else (m, some .emptyRegistry)

/-! ## Texture binder -/

/-- `WRAP_MODE_DIC`: the four supported wrap-mode names (already lower-case in
the source) mapped to the toolkit's wrap constants, modelled as distinct
codes. -/
def WRAP_MODE_DIC : List (String × Nat) :=
  [("clamptoedge", 0), ("repeat", 1), ("mirroredrepeat", 2), ("clamptoborder", 3)]

/-- `BLENDING_MODE_DIC`: the seven supported blending-mode names. -/
def BLENDING_MODE_DIC : List (String × Nat) :=
  [("none", 0), ("replace", 1), ("modulate", 2), ("add", 3),
   ("addsigned", 4), ("interpolate", 5), ("subtract", 6)]

/-- The keys of `type_dic` in `window_to_texture`: the pixel-buffer types the
window capture supports. -/
def BUFFER_TYPES : List String :=
  ["rgb", "rgba", "zbuffer"]

/-- Python's `str.lower()` as the source applies it to mode names (ASCII
per-character lowercasing). -/
def strLower (s : String) : String :=
  ⟨s.data.map Char.toLower⟩

/-- A failed dictionary lookup in the texture helpers: python's `KeyError`,
the spec's `InvalidOption`. -/
inductive TexError where
  | invalidOption
deriving DecidableEq

/-- The texture state the helpers install on the target actor. -/
structure TextureState where
  mipmap : Bool
  borderColor : ℚ × ℚ × ℚ × ℚ
  wrap : Nat
  interpolate : Bool
  blendingMode : Nat
deriving DecidableEq

/-- Lookup in one of the mode dictionaries. -/
def lookupStr (key : String) (dic : List (String × Nat)) : Option Nat :=
  (dic.find? (fun p => p.1 == key)).map (fun p => p.2)

/-- `window_to_texture` (texture-state part): selects the buffer type with
`type_dic[d_type.lower()]`, then builds the texture with mip-mapping, border
color, `WRAP_MODE_DIC[wrap_mode.lower()]`, interpolation and
`BLENDING_MODE_DIC[blending_mode.lower()]`.  Any failed lookup raises
`KeyError` at call time.  Returns the canonical buffer-type key together with
the texture state set on the target actor. -/
def window_to_texture (blending_mode wrap_mode : String)
    (border_color : ℚ × ℚ × ℚ × ℚ) (interp : Bool) (d_type : String) :
    Except TexError (String × TextureState) :=
  if !(BUFFER_TYPES.contains (strLower d_type)) then .error .invalidOption
  else
    match lookupStr (strLower wrap_mode) WRAP_MODE_DIC with
    | none => .error .invalidOption
    | some w =>
      match lookupStr (strLower blending_mode) BLENDING_MODE_DIC with
      | none => .error .invalidOption
      | some b =>
        .ok (strLower d_type,
             { mipmap := true
               borderColor := border_color
               wrap := w
               interpolate := interp
               blendingMode := b })

/-- `texture_to_actor` (texture-state part): like `window_to_texture` but the
pixel source is the image loaded from `path_to_texture` (kept as the path) and
there is no buffer-type argument. -/
def texture_to_actor (path_to_texture : String) (blending_mode wrap_mode : String)
    (border_color : ℚ × ℚ × ℚ × ℚ) (interp : Bool) :
    Except TexError (String × TextureState) :=
  match lookupStr (strLower wrap_mode) WRAP_MODE_DIC with
  | none => .error .invalidOption
  | some w =>
    match lookupStr (strLower blending_mode) BLENDING_MODE_DIC with
    | none => .error .invalidOption
    | some b =>
      .ok (path_to_texture,
           { mipmap := true
             borderColor := border_color
             wrap := w
             interpolate := interp
             blendingMode := b })

/-! ## Concrete instances used to witness the theorems -/

/-- The KDE of the spec's end-to-end scenario: one point at the origin,
bandwidth array `[0.2]`. -/
def kdeOrigin : KDE :=
  ⟨[⟨0, 0, 0⟩], [1/5], "gaussian", [6/5], ⟨0, 0, 0⟩⟩

/-- A manager holding one registered effect: handle 1, callback id 0,
first-pass billboard 2. -/
def managerOne : EffectManager :=
  ⟨[(1, 0, 2)], 1, [1], [2], [0], 1⟩

/-- An effect whose `apply` and callback succeed. -/
def effectOk : Effect :=
  ⟨5, 7, false, false, false⟩

/-- An effect whose `apply` raises before touching the off-screen scene. -/
def effectBad : Effect :=
  ⟨5, 7, true, false, false⟩

/-! ## Claims -/

/-- C1: the claim fails on the code.  For the 2-point set with the length-1
bandwidth array `[1/2]`, `apply` uploads an `"in_bandwidth"` attribute of only
4 entries (`np.repeat` of the pre-broadcast `self.bandwidths`), i.e. one
quad's worth of vertices, whereas a broadcast per-point upload — one value
repeated 4 times per point, which is what the sibling `"in_scale"` attribute
gets — would have 4·N = 8 entries.  The per-point bandwidth is therefore not
the broadcast value for every point: vertices of the second point get no
uploaded value at all. -/
theorem C1_in_bandwidth_upload_bug :
    (KDE.make [⟨0, 0, 0⟩, ⟨1, 0, 0⟩] [1/2] "gaussian").toOption.map
      (fun k => (k.in_bandwidth, k.in_bandwidth.length, k.in_scale.length,
                 4 * k.points.length)) =
    some ([1/2, 1/2, 1/2, 1/2], 4, 8, 8) := by decide

/-- C4: constructing a KDE with a bandwidth array whose length is neither 1
nor the number of points always fails with the shape error (the code's
`IndexError`, the spec's `ShapeError`), regardless of the bandwidth values. -/
theorem C4_shape_mismatch_always_fails (points : List Point3)
    (bandwidths : List ℚ) (kernel : String)
    (h1 : bandwidths.length ≠ 1) (h2 : bandwidths.length ≠ points.length) :
    KDE.make points bandwidths kernel = .error .shapeError := by
  unfold KDE.make
  rw [if_pos ⟨h1, h2⟩]

/-- C4 witness: the length-2 array `[0, -1]` (even with non-positive values)
against a single point fails with the shape error, not the value error. -/
theorem C4_shape_mismatch_always_fails_witness :
    [(0 : ℚ), -1].length ≠ 1 ∧
    [(0 : ℚ), -1].length ≠ [(⟨0, 0, 0⟩ : Point3)].length ∧
    KDE.make [⟨0, 0, 0⟩] [0, -1] "gaussian" = .error .shapeError :=
  ⟨by decide, by decide,
   C4_shape_mismatch_always_fails [⟨0, 0, 0⟩] [0, -1] "gaussian"
     (by decide) (by decide)⟩

/-- C2 fails as stated: for the single accepted point `(-10, -10, 0)` with
bandwidth `1/5`, the derived second-pass extent is `0` while the first-pass
x bounding-box extent plus the margin `2·4.0·max(bandwidth)` is `4`, because
`apply` adds the (negative) centroid coordinates into `actor_scales` before
taking the maximum. -/
theorem C2_counterexample :
    (KDE.make [⟨-10, -10, 0⟩] [1/5] "gaussian").toOption.map
      (fun k => decide (k.bboxExtentX + k.max_bandwidth ≤ k.secondPassExtent)) =
    some false := by decide

/-- C2 (amended): for every accepted KDE input whose point-set centroid has
nonnegative x and y coordinates, the derived second-pass quad extent is at
least the first-pass bounding-box extent plus the margin
`2·4.0·max(bandwidth)` on each of the x and y axes. -/
theorem C2_amended_no_clipping (points : List Point3) (bandwidths : List ℚ)
    (kernel : String) (k : KDE)
    (_hmk : KDE.make points bandwidths kernel = .ok k)
    (hx : 0 ≤ k.center_of_mass.x) (hy : 0 ≤ k.center_of_mass.y) :
    k.bboxExtentX + k.max_bandwidth ≤ k.secondPassExtent ∧
    k.bboxExtentY + k.max_bandwidth ≤ k.secondPassExtent := by
  have h1 : k.actor_scales.1 ≤ k.secondPassExtent :=
    le_max_of_le_left (le_max_left _ _)
  have h2 : k.actor_scales.2 ≤ k.secondPassExtent :=
    le_max_of_le_left (le_max_right _ _)
  have e1 : k.actor_scales.1 = k.bboxExtentX + k.center_of_mass.x + k.max_bandwidth := rfl
  have e2 : k.actor_scales.2 = k.bboxExtentY + k.center_of_mass.y + k.max_bandwidth := rfl
  constructor
  · nlinarith [h1, e1]
  · nlinarith [h2, e2]

/-- C2 witness: the origin point set with bandwidth `[1/5]` is accepted, has a
nonnegative centroid, and satisfies the amended bound on both axes. -/
theorem C2_amended_no_clipping_witness :
    KDE.make [⟨0, 0, 0⟩] [1/5] "gaussian" = .ok kdeOrigin ∧
    (kdeOrigin.bboxExtentX + kdeOrigin.max_bandwidth ≤ kdeOrigin.secondPassExtent ∧
     kdeOrigin.bboxExtentY + kdeOrigin.max_bandwidth ≤ kdeOrigin.secondPassExtent) :=
  ⟨by rfl,
   C2_amended_no_clipping [⟨0, 0, 0⟩] [1/5] "gaussian" kdeOrigin
     (by rfl) (by decide) (by decide)⟩

/-- C3 fails as stated: for the single accepted point `(-10, -10, 0)` with
bandwidth `3/10`, the code's uniform second-pass extent is `0`, not the larger
of the two x/y values (`-4`): numpy's `.max()` runs over the whole array
`[[x, y, 0.0]]`, so the trailing `0.0` participates. -/
theorem C3_counterexample :
    (KDE.make [⟨-10, -10, 0⟩] [3/10] "gaussian").toOption.map
      (fun k => decide (k.secondPassExtent = k.specSecondPassExtent)) =
    some false := by decide

/-- C3 (amended): for every accepted KDE input, the first-pass per-point
scales are exactly `2·3.0·bandwidth` over the broadcast bandwidths, the
second-pass quad sits at the point-set centroid, and its uniform extent equals
the larger of the x/y values of (bounding-box extent + centroid coordinate +
`2·4.0·max(bandwidth)`) capped below by `0`; in particular, for 1 point at the
origin with bandwidth `[1/5]` the per-point scale (quad half-extent) is
`6/5 = 1.2`, the second-pass quad is centered at `(0,0,0)` and the margin is
`8/5 = 1.6`. -/
theorem C3_derived_scale_formulas (points : List Point3) (bandwidths : List ℚ)
    (kernel : String) (k : KDE)
    (hmk : KDE.make points bandwidths kernel = .ok k) :
    (k.scales = (broadcastBandwidths points bandwidths).map (fun b => 2 * 3 * b) ∧
     k.secondPassCenter = centroid points ∧
     k.secondPassExtent = max k.specSecondPassExtent 0) ∧
    (KDE.make [⟨0, 0, 0⟩] [1/5] "gaussian").toOption.map
        (fun j => (j.scales, j.secondPassCenter, j.max_bandwidth)) =
      some ([6/5], ⟨0, 0, 0⟩, 8/5) := by
  refine ⟨?_, by decide⟩
  unfold KDE.make at hmk
  split at hmk
  · exact Except.noConfusion hmk
  · split at hmk
    · exact Except.noConfusion hmk
    · rename_i b bs heq
      split at hmk
      · exact Except.noConfusion hmk
      · injection hmk with hk
        subst hk
        refine ⟨?_, rfl, rfl⟩
        rw [heq]

/-- C3 witness: the theorem applied to the spec's end-to-end scenario input. -/
theorem C3_derived_scale_formulas_witness :
    KDE.make [⟨0, 0, 0⟩] [1/5] "gaussian" = .ok kdeOrigin ∧
    ((kdeOrigin.scales =
        (broadcastBandwidths [⟨0, 0, 0⟩] [1/5]).map (fun b => 2 * 3 * b) ∧
      kdeOrigin.secondPassCenter = centroid [⟨0, 0, 0⟩] ∧
      kdeOrigin.secondPassExtent = max kdeOrigin.specSecondPassExtent 0) ∧
     (KDE.make [⟨0, 0, 0⟩] [1/5] "gaussian").toOption.map
         (fun j => (j.scales, j.secondPassCenter, j.max_bandwidth)) =
       some ([6/5], ⟨0, 0, 0⟩, 8/5)) :=
  ⟨by rfl,
   C3_derived_scale_formulas [⟨0, 0, 0⟩] [1/5] "gaussian" kdeOrigin (by rfl)⟩

/-- Helper: popping a key that the registry lookup finds removes exactly one
entry. -/
theorem dictPop_length {h : Nat} {l : List (Nat × Nat × Nat)} {v : Nat × Nat}
    (hl : lookupEffect h l = some v) :
    (dictPop h l).length + 1 = l.length := by
  unfold lookupEffect at hl
  cases hf : l.find? (fun p => p.1 == h) with
  | none => rw [hf] at hl; exact Option.noConfusion hl
  | some q =>
    have hq := List.find?_some hf
    have hmem := List.mem_of_find?_eq_some hf
    exact List.length_eraseP_add_one hmem hq

/-- C5: a successful `add` of an effect whose handle is not yet registered
returns the second-pass billboard as the handle, grows the registry map and
the active-effect count by exactly 1, subscribes exactly one per-frame
callback, runs the callback exactly once synchronously inside `add`, and puts
the second-pass billboard into the host's on-screen scene. -/
theorem C5_add_success (m : EffectManager) (e : Effect)
    (ha : e.applyFails = false) (hc : e.callbackFails = false)
    (hfresh : m.activeEffects.all (fun p => !(p.1 == e.id)) = true) :
    (m.add e).handle = some e.id ∧
    (m.add e).manager.activeEffects.length = m.activeEffects.length + 1 ∧
    (m.add e).manager.nActiveEffects = m.nActiveEffects + 1 ∧
    (m.add e).manager.subscriptions.length = m.subscriptions.length + 1 ∧
    (m.add e).syncInvocations = 1 ∧
    e.id ∈ (m.add e).manager.onSceneActors := by
  have hany : m.activeEffects.any (fun p => p.1 == e.id) = false := by
    rw [List.any_eq_false]
    intro p hp
    simpa using List.all_eq_true.mp hfresh p hp
  simp [EffectManager.add, applyEffect, ha, hc, dictInsert, hany]

/-- C5 witness: adding a fresh effect to a fresh manager. -/
theorem C5_add_success_witness :
    (effectOk.applyFails = false ∧ effectOk.callbackFails = false ∧
     EffectManager.init.activeEffects.all (fun p => !(p.1 == effectOk.id)) = true) ∧
    ((EffectManager.init.add effectOk).handle = some effectOk.id ∧
     (EffectManager.init.add effectOk).manager.activeEffects.length =
       EffectManager.init.activeEffects.length + 1 ∧
     (EffectManager.init.add effectOk).manager.nActiveEffects =
       EffectManager.init.nActiveEffects + 1 ∧
     (EffectManager.init.add effectOk).manager.subscriptions.length =
       EffectManager.init.subscriptions.length + 1 ∧
     (EffectManager.init.add effectOk).syncInvocations = 1 ∧
     effectOk.id ∈ (EffectManager.init.add effectOk).manager.onSceneActors) :=
  ⟨⟨rfl, rfl, rfl⟩,
   C5_add_success EffectManager.init effectOk rfl rfl (by decide)⟩

/-- C6: `remove_effect` on an empty registry fails with the empty-registry
error; on a registered handle it succeeds, unsubscribes that effect's
callback, removes the first-pass billboard from the off-screen scene and the
second-pass billboard from the on-screen scene, and shrinks both the registry
map and the active-effect count by exactly 1. -/
theorem C6_remove_registered (m : EffectManager) (h cid bill : Nat)
    (hn : 0 < m.nActiveEffects)
    (hl : lookupEffect h m.activeEffects = some (cid, bill)) :
    ((m.remove_effect h).2 = none ∧
     (m.remove_effect h).1.nActiveEffects + 1 = m.nActiveEffects ∧
     (m.remove_effect h).1.activeEffects.length + 1 = m.activeEffects.length ∧
     (m.remove_effect h).1.subscriptions = m.subscriptions.erase cid ∧
     (m.remove_effect h).1.offSceneActors = m.offSceneActors.erase bill ∧
     (m.remove_effect h).1.onSceneActors = m.onSceneActors.erase h) ∧
    ∀ m0 : EffectManager, m0.nActiveEffects = 0 →
      (m0.remove_effect h).2 = some RemoveError.emptyRegistry := by
  constructor
  · have hr : m.remove_effect h =
        ({ m with
            subscriptions := m.subscriptions.erase cid
            offSceneActors := m.offSceneActors.erase bill
            onSceneActors := m.onSceneActors.erase h
            activeEffects := dictPop h m.activeEffects
            nActiveEffects := m.nActiveEffects - 1 }, none) := by
      unfold EffectManager.remove_effect
      rw [if_pos hn, hl]
    rw [hr]
    refine ⟨rfl, by simp; omega, ?_, rfl, rfl, rfl⟩
    simpa using dictPop_length hl
  · intro m0 h0
    unfold EffectManager.remove_effect
    rw [if_neg (by omega)]

/-- C6 witness: the one-effect manager loses its only entry; any manager with
a zero count fails with the empty-registry error. -/
theorem C6_remove_registered_witness :
    (0 < managerOne.nActiveEffects ∧
     lookupEffect 1 managerOne.activeEffects = some (0, 2)) ∧
    (((managerOne.remove_effect 1).2 = none ∧
      (managerOne.remove_effect 1).1.nActiveEffects + 1 = managerOne.nActiveEffects ∧
      (managerOne.remove_effect 1).1.activeEffects.length + 1 =
        managerOne.activeEffects.length ∧
      (managerOne.remove_effect 1).1.subscriptions =
        managerOne.subscriptions.erase 0 ∧
      (managerOne.remove_effect 1).1.offSceneActors =
        managerOne.offSceneActors.erase 2 ∧
      (managerOne.remove_effect 1).1.onSceneActors =
        managerOne.onSceneActors.erase 1) ∧
     ∀ m0 : EffectManager, m0.nActiveEffects = 0 →
       (m0.remove_effect 1).2 = some RemoveError.emptyRegistry) :=
  ⟨⟨by decide, by decide⟩,
   C6_remove_registered managerOne 1 0 2 (by decide) (by decide)⟩

/-- C7: when `apply` (or the synchronous first callback invocation) raises,
`add` propagates the failure (no handle is returned) and leaves both the
registry map and the active-effect count exactly as they were. -/
theorem C7_failed_add_registry_unchanged (m : EffectManager) (e : Effect)
    (hf : e.applyFails = true ∨ e.callbackFails = true) :
    (m.add e).handle = none ∧
    (m.add e).manager.activeEffects = m.activeEffects ∧
    (m.add e).manager.nActiveEffects = m.nActiveEffects := by
  rcases hf with h | h <;>
    cases hA : e.applyFails <;> cases hB : e.applyFailsAfterSceneAdd <;>
      simp_all [EffectManager.add, applyEffect]

/-- C7 witness: a failing `apply` on a fresh manager leaves the registry
empty. -/
theorem C7_failed_add_registry_unchanged_witness :
    (effectBad.applyFails = true ∨ effectBad.callbackFails = true) ∧
    ((EffectManager.init.add effectBad).handle = none ∧
     (EffectManager.init.add effectBad).manager.activeEffects =
       EffectManager.init.activeEffects ∧
     (EffectManager.init.add effectBad).manager.nActiveEffects =
       EffectManager.init.nActiveEffects) :=
  ⟨Or.inl rfl,
   C7_failed_add_registry_unchanged EffectManager.init effectBad (Or.inl rfl)⟩

/-- C8: a wrap-mode or blending-mode name that (case-insensitively) matches no
supported entry makes both `window_to_texture` and `texture_to_actor` fail
with the invalid-option error (python's `KeyError`) at call time — no texture
state is returned, so there is no silent fallback to a default mode. -/
theorem C8_unknown_mode_fails (blending_mode wrap_mode d_type path : String)
    (bc : ℚ × ℚ × ℚ × ℚ) (i : Bool)
    (hbad : lookupStr (strLower wrap_mode) WRAP_MODE_DIC = none ∨
            lookupStr (strLower blending_mode) BLENDING_MODE_DIC = none) :
    window_to_texture blending_mode wrap_mode bc i d_type =
      .error .invalidOption ∧
    texture_to_actor path blending_mode wrap_mode bc i =
      .error .invalidOption := by
  rcases hbad with hw | hb
  · refine ⟨?_, ?_⟩
    · unfold window_to_texture
      split
      · rfl
      · rw [hw]
    · unfold texture_to_actor
      rw [hw]
  · refine ⟨?_, ?_⟩
    · unfold window_to_texture
      split
      · rfl
      · cases hw2 : lookupStr (strLower wrap_mode) WRAP_MODE_DIC with
        | none => rfl
        | some w => rw [hb]
    · unfold texture_to_actor
      cases hw2 : lookupStr (strLower wrap_mode) WRAP_MODE_DIC with
      | none => rfl
      | some w => rw [hb]

/-- C8 witness: the unsupported wrap name "clamp" is rejected by both calls. -/
theorem C8_unknown_mode_fails_witness :
    (lookupStr (strLower "clamp") WRAP_MODE_DIC = none ∨
     lookupStr (strLower "Overlay") BLENDING_MODE_DIC = none) ∧
    (window_to_texture "Overlay" "clamp" (0, 0, 0, 1) true "rgb" =
       .error .invalidOption ∧
     texture_to_actor "img.png" "Overlay" "clamp" (0, 0, 0, 1) true =
       .error .invalidOption) :=
  ⟨Or.inl (by decide),
   C8_unknown_mode_fails "Overlay" "clamp" "rgb" "img.png" (0, 0, 0, 1) true
     (Or.inl (by decide))⟩

/-- C9: on a non-empty registry, `remove_effect` with an unregistered handle
fails with the dict-lookup `KeyError` and returns with the whole manager state
— registry, subscriptions and both scenes — unchanged. -/
theorem C9_unknown_handle_keyerror (m : EffectManager) (h : Nat)
    (hn : 0 < m.nActiveEffects)
    (hl : lookupEffect h m.activeEffects = none) :
    m.remove_effect h = (m, some RemoveError.keyError) := by
  unfold EffectManager.remove_effect
  rw [if_pos hn, hl]

/-- C9 witness: removing the never-added handle 99 from the one-effect
manager. -/
theorem C9_unknown_handle_keyerror_witness :
    (0 < managerOne.nActiveEffects ∧
     lookupEffect 99 managerOne.activeEffects = none) ∧
    managerOne.remove_effect 99 = (managerOne, some RemoveError.keyError) :=
  ⟨⟨by decide, by decide⟩,
   C9_unknown_handle_keyerror managerOne 99 (by decide) (by decide)⟩

/-- C10: the mode and pixel-type names are matched case-insensitively: two
calls whose wrap-mode, blending-mode and pixel-type names agree after
lowercasing produce identical texture state (or identical errors). -/
theorem C10_case_insensitive_modes
    (blending_mode wrap_mode d_type bm2 wm2 dt2 path : String)
    (bc : ℚ × ℚ × ℚ × ℚ) (i : Bool)
    (h1 : strLower blending_mode = strLower bm2)
    (h2 : strLower wrap_mode = strLower wm2)
    (h3 : strLower d_type = strLower dt2) :
    window_to_texture blending_mode wrap_mode bc i d_type =
      window_to_texture bm2 wm2 bc i dt2 ∧
    texture_to_actor path blending_mode wrap_mode bc i =
      texture_to_actor path bm2 wm2 bc i := by
  unfold window_to_texture texture_to_actor
  rw [h1, h2, h3]
  exact ⟨rfl, rfl⟩

/-- C10 witness: shouting the mode names changes nothing. -/
theorem C10_case_insensitive_modes_witness :
    (strLower "Interpolate" = strLower "INTERPOLATE" ∧
     strLower "ClampToEdge" = strLower "clampToEDGE" ∧
     strLower "RGBA" = strLower "rgba") ∧
    (window_to_texture "Interpolate" "ClampToEdge" (0, 0, 0, 1) true "RGBA" =
       window_to_texture "INTERPOLATE" "clampToEDGE" (0, 0, 0, 1) true "rgba" ∧
     texture_to_actor "img.png" "Interpolate" "ClampToEdge" (0, 0, 0, 1) true =
       texture_to_actor "img.png" "INTERPOLATE" "clampToEDGE" (0, 0, 0, 1) true) :=
  ⟨⟨by decide, by decide, by decide⟩,
   C10_case_insensitive_modes "Interpolate" "ClampToEdge" "RGBA"
     "INTERPOLATE" "clampToEDGE" "rgba" "img.png" (0, 0, 0, 1) true
     (by decide) (by decide) (by decide)⟩

end Fury
